import Mathlib

/-!
Verification of the metadata-enrichment pipeline
(`src/commands/metadata_enricher.py`).

The Python source is shallowly embedded: pure helpers
(`ConfidenceCalculator.calculate`, `DataValidator.validate`) become Lean
functions; the network-dependent collaborators (`DOIResolver`,
`GoogleSearcher`, `MetadataExtractor`) are abstracted as an oracle
record `Net` capturing exactly the values the orchestrator consumes;
the orchestrator `_process_paper_block` and the batch driver `enrich`
are translated statement by statement.  Python string operations
(`strip`, `split`, `join`, `in`, `startswith`, slicing, `lower`) are
modelled by executable character-list functions with the same
semantics.
-/

/-! ## Python string primitives -/

/-- Whitespace characters stripped by Python `str.strip()`. -/
def isPyWs (c : Char) : Bool :=
  c = ' ' || c = '\t' || c = '\n' || c = '\r' || c = '\x0B' || c = '\x0C'

/-- `str.strip()` on a character list. -/
def pyStripL (l : List Char) : List Char :=
  ((l.dropWhile isPyWs).reverse.dropWhile isPyWs).reverse

/-- `str.strip()`. -/
def pyTrim (s : String) : String := ⟨pyStripL s.data⟩

/-- Prepend a character to the first piece of a split (helper for the
split functions below). -/
def consHead (c : Char) : List (List Char) → List (List Char)
  | [] => [[c]]
  | p :: ps => (c :: p) :: ps

/-- Python `s.split('\n')` on a character list. -/
def splitNl : List Char → List (List Char)
  | [] => [[]]
  | c :: rest => if c = '\n' then [] :: splitNl rest else consHead c (splitNl rest)

/-- Python `s.split('\n')`. -/
def pyLines (s : String) : List String := (splitNl s.data).map (⟨·⟩)

/-- Python `s.split('\n\n')` on a character list: split on leftmost
non-overlapping occurrences of two consecutive newlines. -/
def splitBlankSep : List Char → List (List Char)
  | [] => [[]]
  | [c] => [[c]]
  | c1 :: c2 :: rest =>
    if c1 = '\n' ∧ c2 = '\n' then [] :: splitBlankSep rest
    else consHead c1 (splitBlankSep (c2 :: rest))

/-- Python `content.split('\n\n')`. -/
def splitB (s : String) : List String := (splitBlankSep s.data).map (⟨·⟩)

/-- Does the list contain two consecutive newlines (an occurrence of
the `'\n\n'` separator)? -/
def hasNlPair : List Char → Bool
  | c1 :: c2 :: rest => (c1 = '\n' && c2 = '\n') || hasNlPair (c2 :: rest)
  | _ => false

/-- Python `'\n\n'.join` on character lists. -/
def joinSep : List (List Char) → List Char
  | [] => []
  | [p] => p
  | p :: q :: qs => p ++ '\n' :: '\n' :: joinSep (q :: qs)

/-- Python `'\n\n'.join(blocks)`. -/
def joinB (l : List String) : String := ⟨joinSep (l.map String.data)⟩

/-- Python `sep.join(strings)`. -/
def pyJoin (sep : String) : List String → String
  | [] => ""
  | [x] => x
  | x :: y :: rest => x ++ sep ++ pyJoin sep (y :: rest)

/-- Python substring test `sub in s` on character lists. -/
def containsSub (sub : List Char) : List Char → Bool
  | [] => sub.isPrefixOf []
  | c :: t => sub.isPrefixOf (c :: t) || containsSub sub t

/-- Python whitespace word-split `s.split()` (used for the word-set
intersection in the validator): accumulator-based scan. -/
def pyWordsAux : List Char → List Char → List (List Char)
  | [], acc => if acc = [] then [] else [acc.reverse]
  | c :: rest, acc =>
    if isPyWs c then
      if acc = [] then pyWordsAux rest [] else acc.reverse :: pyWordsAux rest []
    else pyWordsAux rest (c :: acc)

/-- Python `s.split()` (split on whitespace runs, dropping empties). -/
def pyWords (l : List Char) : List (List Char) := pyWordsAux l []

/-- Number of positions where an uppercase ASCII letter is immediately
followed by a lowercase one.  The regex
`[A-Z][a-z]+.*[A-Z][a-z]+` (with `.` not matching `'\n'`) matches a
string exactly when some `'\n'`-free line has at least two such
positions. -/
def capPairCount : List Char → Nat
  | c1 :: c2 :: rest => (if c1.isUpper ∧ c2.isLower then 1 else 0) + capPairCount (c2 :: rest)
  | _ => 0

/-- `re.search(r'[A-Z][a-z]+.*[A-Z][a-z]+', data)` succeeds. -/
def hasAuthorPattern (l : List Char) : Bool :=
  (splitNl l).any (fun line => 2 ≤ capPairCount line)

/-! ## Data model -/

/-- The validation-results dictionary built by `DataValidator.validate`
(keys `format_valid`, `content_relevant`, `source_reliable`). -/
structure ValidationFlags where
  format_valid : Bool
  content_relevant : Bool
  source_reliable : Bool
deriving Repr, DecidableEq

/-- One item of `GoogleSearcher.search`: `{title, link, snippet}`. -/
structure SearchResult where
  title : String
  link : String
  snippet : String
deriving Repr, DecidableEq

/-- The `result` dictionary of `MetadataEnricher._process_paper_block`. -/
structure Result where
  authors : String
  abstract : String
  webpage : String
  author_confidence : Int
  abstract_confidence : Int
  webpage_confidence : Int
  source_method : String
  needs_review : Bool
  errors : List String
deriving Repr, DecidableEq

/-- Oracle for the network-dependent collaborators: `resolveDOI` is the
HTTP part of `DOIResolver.resolve` (final URL on success plus status
message), `search` is `GoogleSearcher.search(query, num_results=3)`
(already never raising, returning `[]` on any error), and `extract` is
`MetadataExtractor.extract_from_url` returning `(abstract, authors)`. -/
structure Net where
  resolveDOI : String → Option String × String
  search : String → List SearchResult
  extract : String → String × String

/-! ## Pure components -/

/-- `ConfidenceCalculator.calculate`. -/
def ConfidenceCalculator.calculate (data_type source_method : String)
    (validation_results : ValidationFlags) : Int :=
  let score : Int :=
    if source_method = "doi_direct" then 90
    else if source_method = "google_search" then 60
    else if source_method = "fallback" then 30
    else 30
  let score := if validation_results.format_valid then score + 10 else score
  let score := if validation_results.content_relevant then score + 10 else score
  let score := if validation_results.source_reliable then score + 10 else score
  min 100 (max 0 score)

/-- `DataValidator.validate`. -/
def DataValidator.validate (data paper_title data_type : String) : ValidationFlags :=
  if data = "" then ⟨false, false, false⟩
  else
    let format_valid :=
      if data_type = "authors" then
        hasAuthorPattern data.data || containsSub "et al".data data.data
      else if data_type = "abstract" then
        decide (50 < data.data.length) &&
          (["study", "research", "analysis", "method"].any
            (fun w => containsSub w.data (data.data.map Char.toLower)))
      else false
    let content_relevant :=
      if paper_title = "" then false
      else
        (pyWords (paper_title.data.map Char.toLower)).any
          (fun w => (pyWords (data.data.map Char.toLower)).contains w)
    ⟨format_valid, content_relevant, false⟩

/-- `DOIResolver.resolve`: the guard is local, the network part is the
oracle. -/
def DOIResolver.resolve (net : Net) (doi : String) : Option String × String :=
  if doi = "" ∨ doi = "Not available" ∨ containsSub "ISBN".data doi.data = true then
    (none, "No valid DOI")
  else net.resolveDOI doi

/-! ## Orchestrator -/

/-- Stage events, used to express the order in which the orchestrator
consults its collaborators. -/
inductive Ev where
  | resolve (doi : String)
  | search (query : String)
deriving Repr, DecidableEq

/-- The `result` dictionary as initialized at the top of
`_process_paper_block`. -/
def initResult : Result := ⟨"", "", "", 0, 0, 0, "", false, []⟩

/-- Body of the DOI branch (after the orchestrator guard): resolve,
extract, validate, score. -/
def doiAttempt (net : Net) (d title : String) (r : Result) : Result :=
  match DOIResolver.resolve net d with
  | (some url, st) =>
    if url = "" then { r with errors := r.errors ++ ["DOI resolution failed: " ++ st] }
    else
      let ex := net.extract url
      let abstract := ex.1
      let authors := ex.2
      if authors ≠ "" ∨ abstract ≠ "" then
        let author_validation := DataValidator.validate authors title "authors"
        let abstract_validation := DataValidator.validate abstract title "abstract"
        { r with
            authors := authors, abstract := abstract, webpage := url,
            author_confidence :=
              ConfidenceCalculator.calculate "authors" "doi_direct" author_validation,
            abstract_confidence :=
              ConfidenceCalculator.calculate "abstract" "doi_direct" abstract_validation,
            webpage_confidence := 95, source_method := "DOI_DIRECT" }
      else { r with errors := r.errors ++ ["DOI page metadata extraction failed"] }
  | (none, st) => { r with errors := r.errors ++ ["DOI resolution failed: " ++ st] }

/-- The `Try DOI resolution first` stage, with its guard
`doi and doi != "Not available" and "ISBN" not in doi`.  Also returns
the stage events. -/
def doiStage (net : Net) (doi : Option String) (title : String) (r : Result) :
    Result × List Ev :=
  match doi with
  | none => (r, [])
  | some d =>
    if d ≠ "" ∧ d ≠ "Not available" ∧ containsSub "ISBN".data d.data = false then
      (doiAttempt net d title r, [Ev.resolve d])
    else (r, [])

/-- The candidate loop `for i, search_result in enumerate(search_results[:2])`
with its first-success break. -/
def tryCandidates (net : Net) (title : String) : List SearchResult → Result → Result
  | [], r => r
  | sr :: rest, r =>
    let ex := net.extract sr.link
    let abstract := ex.1
    let authors := ex.2
    if authors ≠ "" ∨ abstract ≠ "" then
      let validation := DataValidator.validate authors title "authors"
      { r with
          authors := authors, abstract := abstract, webpage := sr.link,
          author_confidence :=
            ConfidenceCalculator.calculate "authors" "google_search" validation,
          abstract_confidence :=
            ConfidenceCalculator.calculate "abstract" "google_search" validation,
          webpage_confidence := 50, source_method := "GOOGLE_FALLBACK" }
    else tryCandidates net title rest r

/-- The `Fallback to Google search` stage with its entry guard, also
returning the stage events. -/
def fallbackStage (net : Net) (title : String) (r : Result) : Result × List Ev :=
  if r.authors = "" ∧ r.abstract = "" then
    let q := "\"" ++ title ++ "\""
    let results := net.search q
    if results = [] then
      ({ r with errors := r.errors ++ ["No search results found"] }, [Ev.search q])
    else (tryCandidates net title (results.take 2) r, [Ev.search q])
  else (r, [])

/-- The `Determine if needs human review` step. -/
def finalize (r : Result) : Result :=
  if (r.author_confidence < 70 ∨ r.abstract_confidence < 70 ∨ r.webpage_confidence < 70)
      ∨ r.errors ≠ [] then
    { r with needs_review := true }
  else r

/-- The `Build enriched block` tail of `_process_paper_block`. -/
def renderBlock (block : String) (r : Result) : String :=
  let b0 := pyTrim block
  let b1 :=
    if r.authors ≠ "" then
      b0 ++ "\nAuthors: " ++ r.authors
         ++ "\nAuthor_Confidence: " ++ toString r.author_confidence ++ "%"
    else b0
  let b2 :=
    if r.abstract ≠ "" then
      b1 ++ "\nAbstract: " ++ r.abstract
         ++ "\nAbstract_Confidence: " ++ toString r.abstract_confidence ++ "%"
    else b1
  let b3 :=
    if r.webpage ≠ "" then
      b2 ++ "\nWebpage: " ++ r.webpage
         ++ "\nWebpage_Confidence: " ++ toString r.webpage_confidence ++ "%"
    else b2
  let b4 := b3 ++ "\nSource_Method: " ++ r.source_method
  let b5 := b4 ++ "\nNeeds_Review: " ++ (if r.needs_review then "True" else "False")
  if r.errors ≠ [] then b5 ++ "\nErrors: " ++ pyJoin "; " r.errors else b5

/-- The `for line in lines` loop extracting `doi` and `title`
(last assignment wins, `elif` ordering preserved). -/
def parseDOITitle (lines : List String) : Option String × Option String :=
  lines.foldl
    (fun p line =>
      if "DOI:".data.isPrefixOf line.data then
        (some (pyTrim ⟨line.data.drop 4⟩), p.2)
      else if "Title:".data.isPrefixOf line.data then
        (p.1, some (pyTrim ⟨line.data.drop 6⟩))
      else p)
    (none, none)

/-- `MetadataEnricher._process_paper_block`, instrumented with the
stage-event trace.  Returns the enriched (or passed-through) block, the
final `result` dictionary when one was built, and the trace. -/
def processFullT (net : Net) (block : String) : String × Option Result × List Ev :=
  let lines := pyLines (pyTrim block)
  if lines = [] then (block, none, [])
  else
    let dt := parseDOITitle lines
    match dt.2 with
    | none => (block, none, [])
    | some t =>
      if t = "" then (block, none, [])
      else
        let d1 := doiStage net dt.1 t initResult
        let d2 := fallbackStage net t d1.1
        let r := finalize d2.1
        (renderBlock block r, some r, d1.2 ++ d2.2)

/-- `_process_paper_block` as the block transformer used by `enrich`. -/
def processBlock (net : Net) (block : String) : String := (processFullT net block).1

/-- File-system behaviour visible to `MetadataEnricher.enrich`:
existence of the input, the outcome of reading it, and whether the two
writes succeed. -/
structure FS where
  inputExists : Bool
  readResult : Except String String
  writeOutputOk : Bool
  writeLogOk : Bool

/-- `MetadataEnricher.enrich`: raises (`Except.error`) when the input
file is missing or unreadable or the output file cannot be written; a
log-file write failure is caught and only logged as a warning.  Returns
the number of blocks together with the output text written. -/
def enrich (fs : FS) (net : Net) : Except String (Nat × String) :=
  if fs.inputExists = false then Except.error "Input file not found"
  else
    match fs.readResult with
    | Except.error e => Except.error ("Failed to read input file: " ++ e)
    | Except.ok content =>
      let blocks := (splitB content).filter (fun b => pyTrim b ≠ "")
      let enriched := blocks.map (processBlock net)
      if fs.writeOutputOk = false then Except.error "Failed to write output file"
      else Except.ok (blocks.length, joinB enriched)

/-! ## Concrete collaborator behaviours used for witnesses -/

/-- Collaborators that always fail: resolution fails, the search
returns no items, pages yield nothing. -/
def netNone : Net :=
  ⟨fun _ => (none, "HTTP 404"), fun _ => [], fun _ => ("", "")⟩

/-- Collaborators where the search returns one candidate whose page
yields no metadata. -/
def netHit1 : Net :=
  ⟨fun _ => (none, "HTTP 404"), fun _ => [⟨"t", "http://x", "s"⟩], fun _ => ("", "")⟩

/-- Collaborators where the search returns one candidate whose page
yields a short abstract and a well-formed author string. -/
def netPair : Net :=
  ⟨fun _ => (none, "HTTP 404"), fun _ => [⟨"t", "http://x", "s"⟩],
   fun _ => ("brief note", "John Smith")⟩

/-- A file system where everything succeeds and the input is a tiny
two-record document. -/
def fsTwo : FS := ⟨true, Except.ok "Title: X\n\nY", true, true⟩

/-- A file system whose input document has a whitespace-only
blank-line-delimited segment in the middle. -/
def fsGap : FS := ⟨true, Except.ok "A\n\n\n\nB", true, true⟩

/-- A file system where only the sidecar log write fails. -/
def fsLogFail : FS := ⟨true, Except.ok "", true, false⟩

/-! ## Spec-side restatements (for refinement-style claims) -/

/-- Spec formula: base score by acquisition method (authoritative
direct 90, search fallback 60, anything else 30). -/
def baseScore (acquisition_method : String) : Int :=
  if acquisition_method = "doi_direct" then 90
  else if acquisition_method = "google_search" then 60
  else 30

/-- Spec formula: number of true validation flags, as an integer. -/
def trueFlagCount (v : ValidationFlags) : Int :=
  (if v.format_valid then 1 else 0) + (if v.content_relevant then 1 else 0) +
    (if v.source_reliable then 1 else 0)

/-- Whether a run completed without a fatal (raised) error. -/
def isOkE {ε α : Type} : Except ε α → Bool
  | Except.ok _ => true
  | Except.error _ => false

/-! ## Split/join lemmas -/

theorem splitBlankSep_no_pair : ∀ p : List Char, hasNlPair p = false → splitBlankSep p = [p]
  | [], _ => rfl
  | [_], _ => rfl
  | c1 :: c2 :: rest, h => by
    simp only [hasNlPair, Bool.or_eq_false_iff, Bool.and_eq_false_iff,
      decide_eq_false_iff_not] at h
    have hrec := splitBlankSep_no_pair (c2 :: rest) h.2
    have hpair : ¬(c1 = '\n' ∧ c2 = '\n') := fun hc => by
      rcases h.1 with h1 | h1
      · exact h1 hc.1
      · exact h1 hc.2
    simp only [splitBlankSep, if_neg hpair, hrec, consHead]

theorem splitBlankSep_append :
    ∀ (p t : List Char), hasNlPair p = false → p.getLast? ≠ some '\n' →
      splitBlankSep (p ++ '\n' :: '\n' :: t) = p :: splitBlankSep t
  | [], t, _, _ => by simp [splitBlankSep]
  | [c], t, _, hl => by
    have hc : ¬(c = '\n') := by simpa using hl
    simp only [List.cons_append, List.nil_append, splitBlankSep, eq_self_iff_true,
      true_and, and_true]
    rw [if_neg hc, if_pos trivial]
    rfl
  | c1 :: c2 :: p', t, h, hl => by
    simp only [hasNlPair, Bool.or_eq_false_iff, Bool.and_eq_false_iff,
      decide_eq_false_iff_not] at h
    have hpair : ¬(c1 = '\n' ∧ c2 = '\n') := fun hc => by
      rcases h.1 with h1 | h1
      · exact h1 hc.1
      · exact h1 hc.2
    have hl' : (c2 :: p').getLast? ≠ some '\n' := by
      rwa [List.getLast?_cons_cons] at hl
    have ih := splitBlankSep_append (c2 :: p') t h.2 hl'
    simp only [List.cons_append] at ih ⊢
    simp only [splitBlankSep, if_neg hpair, ih, consHead]

theorem splitBlankSep_joinSep :
    ∀ l : List (List Char), l ≠ [] →
      (∀ p ∈ l, hasNlPair p = false ∧ p.getLast? ≠ some '\n') →
      splitBlankSep (joinSep l) = l
  | [], h, _ => absurd rfl h
  | [p], _, hp => by
    have h1 := hp p (by simp)
    simpa [joinSep] using splitBlankSep_no_pair p h1.1
  | p :: q :: qs, _, hp => by
    have h1 := hp p (by simp)
    have ih := splitBlankSep_joinSep (q :: qs) (by simp)
      (fun x hx => hp x (List.mem_cons_of_mem p hx))
    rw [joinSep, splitBlankSep_append p (joinSep (q :: qs)) h1.1 h1.2, ih]

theorem splitB_joinB (l : List String) (hne : l ≠ [])
    (h : ∀ b ∈ l, hasNlPair b.data = false ∧ b.data.getLast? ≠ some '\n') :
    splitB (joinB l) = l := by
  unfold splitB joinB
  rw [splitBlankSep_joinSep (l.map String.data) (by simpa using hne)
    (fun p hp => by obtain ⟨b, hb, rfl⟩ := List.mem_map.mp hp; exact h b hb)]
  simp only [List.map_map]
  have hid : ((fun x : List Char => (⟨x⟩ : String)) ∘ String.data) = id :=
    funext fun s => rfl
  rw [hid, List.map_id]

/-! ## Stage lemmas -/

theorem doiAttempt_review (net : Net) (d t : String) (r : Result) :
    (doiAttempt net d t r).needs_review = r.needs_review := by
  unfold doiAttempt
  rcases DOIResolver.resolve net d with ⟨u, st⟩
  cases u <;> dsimp only <;> split_ifs <;> rfl

theorem doiStage_review (net : Net) (doi : Option String) (t : String) (r : Result) :
    ((doiStage net doi t r).1).needs_review = r.needs_review := by
  unfold doiStage
  cases doi with
  | none => rfl
  | some d =>
    dsimp only
    split_ifs
    · exact doiAttempt_review net d t r
    · rfl

theorem tryCandidates_review (net : Net) (t : String) :
    ∀ (l : List SearchResult) (r : Result),
      (tryCandidates net t l r).needs_review = r.needs_review
  | [], _ => rfl
  | sr :: rest, r => by
    unfold tryCandidates
    dsimp only
    split_ifs
    · rfl
    · exact tryCandidates_review net t rest r

theorem fallbackStage_review (net : Net) (t : String) (r : Result) :
    ((fallbackStage net t r).1).needs_review = r.needs_review := by
  unfold fallbackStage
  dsimp only
  split_ifs
  · rfl
  · exact tryCandidates_review net t _ r
  · rfl

/-- Invariant relating `source_method` to the populated data fields. -/
def SMInv (r : Result) : Prop :=
  r.source_method = "" ↔ (r.authors = "" ∧ r.abstract = "")

theorem doiAttempt_sm (net : Net) (d t : String) (r : Result) (h : SMInv r) :
    SMInv (doiAttempt net d t r) := by
  unfold doiAttempt
  rcases DOIResolver.resolve net d with ⟨u, st⟩
  cases u with
  | none => exact h
  | some url =>
    dsimp only
    split_ifs with h1 h2
    · exact h
    · have hne : ¬((net.extract url).2 = "" ∧ (net.extract url).1 = "") := fun hc => by
        rcases h2 with h2 | h2
        · exact h2 hc.1
        · exact h2 hc.2
      exact iff_of_false (by simp) hne
    · exact h

theorem doiStage_sm (net : Net) (doi : Option String) (t : String) (r : Result)
    (h : SMInv r) : SMInv (doiStage net doi t r).1 := by
  unfold doiStage
  cases doi with
  | none => exact h
  | some d =>
    dsimp only
    split_ifs
    · exact doiAttempt_sm net d t r h
    · exact h

theorem tryCandidates_sm (net : Net) (t : String) :
    ∀ (l : List SearchResult) (r : Result), SMInv r → SMInv (tryCandidates net t l r)
  | [], _, h => h
  | sr :: rest, r, h => by
    unfold tryCandidates
    dsimp only
    split_ifs with h1
    · have hne : ¬((net.extract sr.link).2 = "" ∧ (net.extract sr.link).1 = "") :=
        fun hc => by
          rcases h1 with h1 | h1
          · exact h1 hc.1
          · exact h1 hc.2
      exact iff_of_false (by simp) hne
    · exact tryCandidates_sm net t rest r h

theorem fallbackStage_sm (net : Net) (t : String) (r : Result) (h : SMInv r) :
    SMInv (fallbackStage net t r).1 := by
  unfold fallbackStage
  dsimp only
  split_ifs with h1 h2
  · exact h
  · exact tryCandidates_sm net t _ r h
  · exact h

theorem finalize_sm (r : Result) (h : SMInv r) : SMInv (finalize r) := by
  unfold finalize
  split_ifs
  · exact h
  · exact h

/-- Inversion: when `_process_paper_block` builds a `result` dictionary,
it is the three-stage pipeline applied to the initial dictionary. -/
theorem processFullT_some (net : Net) (block : String) (r : Result)
    (h : (processFullT net block).2.1 = some r) :
    ∃ doi t, r = finalize (fallbackStage net t (doiStage net doi t initResult).1).1 := by
  unfold processFullT at h
  dsimp only at h
  split at h
  · simp at h
  · split at h
    · simp at h
    · split at h
      · simp at h
      · simp only [Option.some.injEq] at h
        exact ⟨_, _, h.symm⟩

theorem finalize_fields (r : Result) :
    (finalize r).author_confidence = r.author_confidence ∧
    (finalize r).abstract_confidence = r.abstract_confidence ∧
    (finalize r).webpage_confidence = r.webpage_confidence ∧
    (finalize r).errors = r.errors ∧
    (finalize r).authors = r.authors ∧
    (finalize r).abstract = r.abstract ∧
    (finalize r).source_method = r.source_method := by
  unfold finalize
  split_ifs <;> exact ⟨rfl, rfl, rfl, rfl, rfl, rfl, rfl⟩

theorem finalize_review (r : Result) (h : r.needs_review = false) :
    (finalize r).needs_review = true ↔
      ((r.author_confidence < 70 ∨ r.abstract_confidence < 70 ∨ r.webpage_confidence < 70)
        ∨ r.errors ≠ []) := by
  unfold finalize
  split_ifs with hc
  · exact iff_of_true rfl hc
  · exact iff_of_false (by simp [h]) hc

theorem tryCandidates_all_empty (net : Net) (t : String) :
    ∀ (l : List SearchResult) (r : Result),
      (∀ c ∈ l, net.extract c.link = ("", "")) → tryCandidates net t l r = r
  | [], _, _ => rfl
  | sr :: rest, r, h => by
    unfold tryCandidates
    dsimp only
    split_ifs with h1
    · exfalso
      have hsr := h sr (by simp)
      rw [hsr] at h1
      rcases h1 with h1 | h1 <;> exact h1 rfl
    · exact tryCandidates_all_empty net t rest r
        (fun c hc => h c (List.mem_cons_of_mem sr hc))

/-! ## Claims -/

/-- C1 (amended): whenever `_process_paper_block` builds a result
dictionary, `needs_review` is true iff `author_confidence < 70` or
`abstract_confidence < 70` or `webpage_confidence < 70` (the
confidences of unpopulated fields remaining at their initial 0) or
`errors` is non-empty. -/
theorem needs_review_iff (net : Net) (block : String) (r : Result)
    (h : (processFullT net block).2.1 = some r) :
    r.needs_review = true ↔
      (r.author_confidence < 70 ∨ r.abstract_confidence < 70 ∨
       r.webpage_confidence < 70 ∨ r.errors ≠ []) := by
  obtain ⟨doi, t, rfl⟩ := processFullT_some net block r h
  set r2 := (fallbackStage net t (doiStage net doi t initResult).1).1 with hr2
  have hnr : r2.needs_review = false := by
    rw [hr2, fallbackStage_review, doiStage_review]
    rfl
  have hf := finalize_fields r2
  rw [hf.1, hf.2.1, hf.2.2.1, hf.2.2.2.1, finalize_review r2 hnr]
  tauto

/-- Witness for `needs_review_iff`: the concrete record produced for a
titled paper whose search candidate yields nothing. -/
theorem needs_review_iff_witness :
    (⟨"", "", "", 0, 0, 0, "", true, []⟩ : Result).needs_review = true ↔
      ((⟨"", "", "", 0, 0, 0, "", true, []⟩ : Result).author_confidence < 70 ∨
       (⟨"", "", "", 0, 0, 0, "", true, []⟩ : Result).abstract_confidence < 70 ∨
       (⟨"", "", "", 0, 0, 0, "", true, []⟩ : Result).webpage_confidence < 70 ∨
       (⟨"", "", "", 0, 0, 0, "", true, []⟩ : Result).errors ≠ []) :=
  needs_review_iff netHit1 "Title: Beta" ⟨"", "", "", 0, 0, 0, "", true, []⟩ (by decide)

/-- C1 counterexample: a titled record where the search returns a
candidate but every tried page yields nothing: no field is populated
and `errors` is empty, yet `needs_review` is true (the claim demands
false here). -/
theorem needs_review_counterexample :
    (processFullT netHit1 "Title: Beta").2.1 =
      some ⟨"", "", "", 0, 0, 0, "", true, []⟩ := by decide

/-- C2 (amended): whenever a result dictionary is built, its
`source_method` is the empty-string sentinel (rendered as the line
`Source_Method: ` with an empty value, not as `Source_Method: NONE`)
exactly when no data was populated from either stage. -/
theorem source_method_empty_iff (net : Net) (block : String) (r : Result)
    (h : (processFullT net block).2.1 = some r) :
    r.source_method = "" ↔ (r.authors = "" ∧ r.abstract = "") := by
  obtain ⟨doi, t, rfl⟩ := processFullT_some net block r h
  refine finalize_sm _ (fallbackStage_sm net t _ (doiStage_sm net doi t initResult ?_))
  unfold SMInv initResult
  simp

/-- Witness for `source_method_empty_iff`: the concrete record built
for a titled paper with no identifier and an empty search. -/
theorem source_method_empty_iff_witness :
    (⟨"", "", "", 0, 0, 0, "", true, ["No search results found"]⟩ : Result).source_method = ""
      ↔ ((⟨"", "", "", 0, 0, 0, "", true, ["No search results found"]⟩ : Result).authors = ""
          ∧ (⟨"", "", "", 0, 0, 0, "", true, ["No search results found"]⟩ : Result).abstract = "") :=
  source_method_empty_iff netNone "Title: Alpha"
    ⟨"", "", "", 0, 0, 0, "", true, ["No search results found"]⟩ (by decide)

/-- C2 counterexample: a paper yielding no data is rendered with the
line `Source_Method: ` (empty value); the string `Source_Method: NONE`
appears nowhere in the enriched block. -/
theorem source_method_none_counterexample :
    (pyLines (processBlock netNone "Title: Alpha")).contains "Source_Method: " = true ∧
    containsSub "Source_Method: NONE".data (processBlock netNone "Title: Alpha").data
      = false := by decide

/-- C3 (amended): in the fallback stage, when no tried candidate yields
data, the error `"No search results found"` is appended exactly when the
search returned an empty candidate list; when candidates were returned
but all tried ones yield nothing, the record (and so `errors` and
`source_method`) is left unchanged. -/
theorem fallback_no_data (net : Net) (t : String) (r : Result)
    (hg : r.authors = "" ∧ r.abstract = "")
    (hall : ∀ c ∈ (net.search ("\"" ++ t ++ "\"")).take 2, net.extract c.link = ("", "")) :
    (fallbackStage net t r).1 =
      (if net.search ("\"" ++ t ++ "\"") = []
       then { r with errors := r.errors ++ ["No search results found"] }
       else r) := by
  unfold fallbackStage
  rw [if_pos hg]
  dsimp only
  split_ifs with h1
  · rfl
  · exact tryCandidates_all_empty net t _ r hall

/-- Witness for `fallback_no_data`: one candidate is returned and tried,
its page yields nothing, and the record is returned unchanged. -/
theorem fallback_no_data_witness :
    (fallbackStage netHit1 "Delta" initResult).1 =
      (if netHit1.search ("\"" ++ "Delta" ++ "\"") = []
       then { initResult with errors := initResult.errors ++ ["No search results found"] }
       else initResult) :=
  fallback_no_data netHit1 "Delta" initResult (by decide) (by decide)

/-- C3 counterexample: the search returns a candidate, the tried
candidate yields nothing, yet `errors` stays empty — the claimed
"no search results found" error is not appended (and `source_method`
stays empty). -/
theorem fallback_error_counterexample :
    netHit1.search ("\"" ++ "Gamma" ++ "\"") ≠ [] ∧
    (processFullT netHit1 "Title: Gamma").2.1.map Result.errors = some [] ∧
    (processFullT netHit1 "Title: Gamma").2.1.map Result.source_method = some "" := by
  decide

/-- C5 (amended): when a fallback candidate succeeds, both
`author_confidence` and `abstract_confidence` are computed from the
single `ValidationFlags` obtained by validating the extracted authors
text with data kind `authors`; the abstract text is not separately
validated. -/
theorem fallback_confidences_from_author_validation (net : Net) (t : String)
    (c : SearchResult) (cs : List SearchResult) (r : Result)
    (h : (net.extract c.link).2 ≠ "" ∨ (net.extract c.link).1 ≠ "") :
    (tryCandidates net t (c :: cs) r).abstract_confidence =
      ConfidenceCalculator.calculate "abstract" "google_search"
        (DataValidator.validate (net.extract c.link).2 t "authors") ∧
    (tryCandidates net t (c :: cs) r).author_confidence =
      ConfidenceCalculator.calculate "authors" "google_search"
        (DataValidator.validate (net.extract c.link).2 t "authors") := by
  unfold tryCandidates
  dsimp only
  rw [if_pos h]
  exact ⟨rfl, rfl⟩

/-- Witness for `fallback_confidences_from_author_validation` at a
concrete candidate whose page yields an abstract and authors. -/
theorem fallback_confidences_witness :
    (tryCandidates netPair "Study" [⟨"t", "http://x", "s"⟩] initResult).abstract_confidence =
      ConfidenceCalculator.calculate "abstract" "google_search"
        (DataValidator.validate (netPair.extract "http://x").2 "Study" "authors") ∧
    (tryCandidates netPair "Study" [⟨"t", "http://x", "s"⟩] initResult).author_confidence =
      ConfidenceCalculator.calculate "authors" "google_search"
        (DataValidator.validate (netPair.extract "http://x").2 "Study" "authors") :=
  fallback_confidences_from_author_validation netPair "Study" ⟨"t", "http://x", "s"⟩ []
    initResult (by decide)

/-- C5 counterexample: the fallback populates an abstract whose
`abstract_confidence` is 70, while validating that abstract text with
kind `abstract` (as the claim demands) yields confidence 60. -/
theorem abstract_validation_counterexample :
    netPair.extract "http://x" = ("brief note", "John Smith") ∧
    (processFullT netPair "Title: Study").2.1.map Result.abstract_confidence = some 70 ∧
    ConfidenceCalculator.calculate "abstract" "google_search"
      (DataValidator.validate "brief note" "Study" "abstract") = 60 := by decide

/-- C9: a block from which no truthy title is parsed is passed through
byte-identical and no result dictionary is built. -/
theorem no_title_passthrough (net : Net) (block : String)
    (h : (parseDOITitle (pyLines (pyTrim block))).2 = none ∨
         (parseDOITitle (pyLines (pyTrim block))).2 = some "") :
    (processFullT net block).1 = block ∧ (processFullT net block).2.1 = none := by
  unfold processFullT
  dsimp only
  by_cases hl : pyLines (pyTrim block) = []
  · rw [if_pos hl]
    exact ⟨rfl, rfl⟩
  · rw [if_neg hl]
    rcases h with h | h <;> rw [h] <;> exact ⟨rfl, rfl⟩

/-- Witness for `no_title_passthrough` on a record with only a year. -/
theorem no_title_passthrough_witness :
    (processFullT netNone "Year: 2020").1 = "Year: 2020" ∧
    (processFullT netNone "Year: 2020").2.1 = none :=
  no_title_passthrough netNone "Year: 2020" (by decide)

/-- C8: for a block with a truthy parsed title and a present,
non-"Not available", non-ISBN identifier, the authoritative resolution
event is the first collaborator event (so it precedes any fallback
search), and a search event occurs only when both `authors` and
`abstract` are still empty after the authoritative stage. -/
theorem resolve_before_search (net : Net) (block : String) (d t : String)
    (hparse : parseDOITitle (pyLines (pyTrim block)) = (some d, some t))
    (ht : t ≠ "") (hd1 : d ≠ "") (hd2 : d ≠ "Not available")
    (hd3 : containsSub "ISBN".data d.data = false) :
    (processFullT net block).2.2.head? = some (Ev.resolve d) ∧
      ∀ q, Ev.search q ∈ (processFullT net block).2.2 →
        ((doiStage net (some d) t initResult).1.authors = "" ∧
         (doiStage net (some d) t initResult).1.abstract = "") := by
  have hlne : pyLines (pyTrim block) ≠ [] := by
    intro h0
    rw [h0] at hparse
    simp [parseDOITitle] at hparse
  have hev : (doiStage net (some d) t initResult).2 = [Ev.resolve d] := by
    unfold doiStage
    dsimp only
    rw [if_pos ⟨hd1, hd2, hd3⟩]
  unfold processFullT
  dsimp only
  rw [if_neg hlne, hparse]
  dsimp only
  rw [if_neg ht, hev]
  refine ⟨rfl, fun q hq => ?_⟩
  simp only [List.singleton_append, List.mem_cons] at hq
  rcases hq with hq | hq
  · exact absurd hq (by simp)
  · unfold fallbackStage at hq
    split_ifs at hq with hg
    · exact hg
    · simp at hq

/-- Witness for `resolve_before_search` on a concrete block carrying a
DOI and a title, with failing resolution and an empty search. -/
theorem resolve_before_search_witness :
    (processFullT netNone "DOI: 10.1/x\nTitle: T").2.2.head? = some (Ev.resolve "10.1/x") ∧
    ((doiStage netNone (some "10.1/x") "T" initResult).1.authors = "" ∧
     (doiStage netNone (some "10.1/x") "T" initResult).1.abstract = "") :=
  ⟨(resolve_before_search netNone "DOI: 10.1/x\nTitle: T" "10.1/x" "T"
      (by decide) (by decide) (by decide) (by decide) (by decide)).1,
   (resolve_before_search netNone "DOI: 10.1/x\nTitle: T" "10.1/x" "T"
      (by decide) (by decide) (by decide) (by decide) (by decide)).2
     ("\"" ++ "T" ++ "\"") (by decide)⟩

/-- C7: the Confidence Calculator equals the spec formula — base score
by acquisition method plus 10 per true flag, clamped to [0, 100] — and
its result always lies in [0, 100]. -/
theorem calculate_formula (data_type acquisition_method : String) (v : ValidationFlags) :
    ConfidenceCalculator.calculate data_type acquisition_method v =
      min 100 (max 0 (baseScore acquisition_method + 10 * trueFlagCount v)) ∧
    0 ≤ ConfidenceCalculator.calculate data_type acquisition_method v ∧
    ConfidenceCalculator.calculate data_type acquisition_method v ≤ 100 := by
  rcases v with ⟨f, c, s⟩
  unfold ConfidenceCalculator.calculate baseScore trueFlagCount
  dsimp only
  by_cases h1 : acquisition_method = "doi_direct" <;>
    by_cases h2 : acquisition_method = "google_search" <;>
    by_cases h3 : acquisition_method = "fallback" <;>
    cases f <;> cases c <;> cases s <;>
    simp [h1, h2, h3]

/-- C10: for every data kind, acquisition method and flag combination
the Confidence Calculator returns a value in [30, 100]: the lower
clamp at 0 is unreachable. -/
theorem calculate_lower_bound (data_type acquisition_method : String) (v : ValidationFlags) :
    30 ≤ ConfidenceCalculator.calculate data_type acquisition_method v ∧
    ConfidenceCalculator.calculate data_type acquisition_method v ≤ 100 := by
  rcases v with ⟨f, c, s⟩
  unfold ConfidenceCalculator.calculate
  dsimp only
  by_cases h1 : acquisition_method = "doi_direct" <;>
    by_cases h2 : acquisition_method = "google_search" <;>
    by_cases h3 : acquisition_method = "fallback" <;>
    cases f <;> cases c <;> cases s <;>
    simp [h1, h2, h3]

/-- C4 (amended): `enrich` completes exactly when the input file exists,
it can be read, and the output file can be written; a failure to write
the sidecar log file is caught and logged, never propagated (note the
formula does not mention `writeLogOk`), and collaborator failures are
absorbed stage-locally. -/
theorem enrich_fatal_iff (fs : FS) (net : Net) :
    isOkE (enrich fs net) = (fs.inputExists && isOkE fs.readResult && fs.writeOutputOk) := by
  rcases fs with ⟨ie, rr, wo, wl⟩
  cases ie <;> rcases rr with e | c <;> cases wo <;> simp [enrich, isOkE]

/-- C4 counterexample: with everything fine except the sidecar log
write, `enrich` still returns successfully — the claimed propagation of
a log-write failure does not happen. -/
theorem log_failure_counterexample :
    enrich fsLogFail netNone = Except.ok (0, "") := rfl

/-- C6 (amended): enrichment preserves the number of non-blank
blank-line-delimited segments (whitespace-only segments are dropped, so
the raw segment count can shrink), provided each enriched block
contains no embedded blank-line separator and does not end in a
newline. -/
theorem enrich_nonblank_segments (fs : FS) (net : Net) (content : String)
    (n : Nat) (out : String)
    (hr : fs.readResult = Except.ok content)
    (hok : enrich fs net = Except.ok (n, out))
    (hgood : ∀ b ∈ ((splitB content).filter (fun x => pyTrim x ≠ "")).map (processBlock net),
        hasNlPair b.data = false ∧ b.data.getLast? ≠ some '\n' ∧ pyTrim b ≠ "") :
    ((splitB out).filter (fun x => pyTrim x ≠ "")).length =
      ((splitB content).filter (fun x => pyTrim x ≠ "")).length := by
  unfold enrich at hok
  rw [hr] at hok
  dsimp only at hok
  by_cases h1 : fs.inputExists = false
  · rw [if_pos h1] at hok
    exact absurd hok (by simp)
  · rw [if_neg h1] at hok
    by_cases h2 : fs.writeOutputOk = false
    · rw [if_pos h2] at hok
      exact absurd hok (by simp)
    · rw [if_neg h2] at hok
      simp only [Except.ok.injEq, Prod.mk.injEq] at hok
      obtain ⟨hn, hout⟩ := hok
      subst hout
      by_cases hB : (splitB content).filter (fun x => pyTrim x ≠ "") = []
      · rw [hB]
        rfl
      · have hmapne : ((splitB content).filter (fun x => pyTrim x ≠ "")).map
            (processBlock net) ≠ [] := by
          simpa using hB
        rw [splitB_joinB _ hmapne (fun b hb => ⟨(hgood b hb).1, (hgood b hb).2.1⟩)]
        rw [List.filter_eq_self.mpr (fun b hb => by simpa using (hgood b hb).2.2),
          List.length_map]

/-- Witness for `enrich_nonblank_segments` on a two-record document:
both sides count 2 non-blank segments. -/
theorem enrich_nonblank_segments_witness :
    ((splitB "Title: X\nSource_Method: \nNeeds_Review: True\nErrors: No search results found\n\nY").filter
        (fun x => pyTrim x ≠ "")).length =
      ((splitB "Title: X\n\nY").filter (fun x => pyTrim x ≠ "")).length :=
  enrich_nonblank_segments fsTwo netNone "Title: X\n\nY" 2
    "Title: X\nSource_Method: \nNeeds_Review: True\nErrors: No search results found\n\nY"
    rfl rfl (by decide)

/-- C6 counterexample: an input with a whitespace-only middle segment
has 3 blank-line-delimited segments, but the enriched output has only
2 — the raw segment count is not invariant. -/
theorem segment_count_counterexample :
    enrich fsGap netNone = Except.ok (2, "A\n\nB") ∧
    (splitB "A\n\n\n\nB").length = 3 ∧ (splitB "A\n\nB").length = 2 :=
  ⟨rfl, by decide, by decide⟩
